import Mathlib

/-!
Shallow embedding of src/nslcd.c from the nss-pam-ldapd repository.

The daemon's startup sequence, privilege-drop pipeline, accept loop,
connection dispatcher, PID-file writer, command-line parser, signal handler
and exit handler are translated into pure Lean functions.  Outcomes of
system calls are supplied through explicit environment records, and the
observable behaviour (system calls made, log lines emitted, process exits)
is recorded as a list of events.  Machine integers are modelled as Nat;
the C sentinel (gid_t)-1 / (uid_t)-1 is the 32-bit all-ones value.
-/

/- ----------------------------------------------------------------- -/
/- Constants from signal.h, errno.h, fcntl.h (Linux values).          -/
/- ----------------------------------------------------------------- -/

def SIGHUP : Nat := 1
def SIGINT : Nat := 2
def SIGQUIT : Nat := 3
def SIGILL : Nat := 4
def SIGTRAP : Nat := 5
def SIGABRT : Nat := 6
def SIGBUS : Nat := 7
def SIGFPE : Nat := 8
def SIGKILL : Nat := 9
def SIGUSR1 : Nat := 10
def SIGSEGV : Nat := 11
def SIGUSR2 : Nat := 12
def SIGPIPE : Nat := 13
def SIGALRM : Nat := 14
def SIGTERM : Nat := 15
def SIGCHLD : Nat := 17
def SIGCONT : Nat := 18
def SIGSTOP : Nat := 19
def SIGTSTP : Nat := 20
def SIGTTIN : Nat := 21
def SIGTTOU : Nat := 22
def SIGURG : Nat := 23
def SIGXCPU : Nat := 24
def SIGXFSZ : Nat := 25
def SIGVTALRM : Nat := 26
def SIGPROF : Nat := 27
def SIGPOLL : Nat := 29
def SIGSYS : Nat := 31

def EINTR : Nat := 4
def EAGAIN : Nat := 11
/-- On Linux, EWOULDBLOCK has the same value as EAGAIN. -/
def EWOULDBLOCK : Nat := 11

def O_NONBLOCK : Nat := 2048

/-- The value of (gid_t)-1 on a platform with 32-bit unsigned gid_t:
the sentinel meaning no target group is configured (nslcd.c line 330). -/
def gidNone : Nat := 4294967295

/-- The value of (uid_t)-1: no target user configured (nslcd.c line 331). -/
def uidNone : Nat := 4294967295

/-- The C expression j & ~O_NONBLOCK on a 32-bit int: the mask is the
32-bit complement of O_NONBLOCK (nslcd.c line 273). -/
def nonblockMask : Nat := 4294967295 ^^^ O_NONBLOCK

/- ----------------------------------------------------------------- -/
/- Decimal printing and parsing (models printf %d for nonneg values). -/
/- ----------------------------------------------------------------- -/

/-- A single decimal digit rendered as a character, as printf %d does. -/
def digitToChar : Nat → Char
  | 0 => '0' | 1 => '1' | 2 => '2' | 3 => '3' | 4 => '4'
  | 5 => '5' | 6 => '6' | 7 => '7' | 8 => '8' | _ => '9'

def charToDigit (c : Char) : Nat := c.toNat - 48

/-- Fuel-driven decimal printer (most significant digit first). -/
def decDigitsAux : Nat → Nat → List Char
  | 0, _ => []
  | fuel + 1, n =>
    if n < 10 then [digitToChar n]
    else decDigitsAux fuel (n / 10) ++ [digitToChar (n % 10)]

/-- The decimal digit string of n, as printf %d renders a nonnegative int. -/
def decDigits (n : Nat) : List Char := decDigitsAux (n + 1) n

/-- The decimal string of n. -/
def decStr (n : Nat) : String := String.mk (decDigits n)

/-- Value of a most-significant-first decimal digit character list. -/
def valOfDigits (cs : List Char) : Nat :=
  cs.foldl (fun a c => 10 * a + charToDigit c) 0

/-- Read back a PID file: a nonempty run of decimal digits followed by
exactly one newline and nothing else. -/
def parsePid (cs : List Char) : Option Nat :=
  let ds := cs.takeWhile Char.isDigit
  if ds.length = 0 then none
  else if cs.drop ds.length = ['\n'] then some (valOfDigits ds)
  else none

/- ----------------------------------------------------------------- -/
/- Observable events.                                                 -/
/- ----------------------------------------------------------------- -/

/-- Log priorities used through log_log (syslog levels). -/
inductive LogLevel where
  | debug
  | info
  | warning
  | err
deriving DecidableEq

/-- Result of the accept(2) call in acceptconnection: either a new
connection descriptor or a failure with the given errno value. -/
inductive AcceptRes where
  | conn (csock : Nat)
  | fail (errnoVal : Nat)
deriving DecidableEq

/-- Observable actions of the daemon: system calls with their outcomes,
log lines, and file writes.  Log messages whose only substituted argument
is strerror(errno) keep the C format string verbatim; messages whose
substituted arguments are claim-relevant values are rendered in full. -/
inductive Event where
  | log (lvl : LogLevel) (msg : String)
  | sysDaemon (ok : Bool)
  | sysUmask (mode : Nat)
  | startLogging
  | atexitRegister
  | fileWrite (path : String) (content : List Char)
  | serverOpen (fd : Int)
  | sysSetgroups (ok : Bool)
  | sysSetgid (gid : Nat) (ok : Bool)
  | sysSetuid (uid : Nat) (ok : Bool)
  | sigInstall (signum : Nat) (ok : Bool)
  | sysAccept (srv : Int) (res : AcceptRes)
  | sysGetfl (fd : Nat) (res : Option Nat)
  | sysSetfl (fd : Nat) (flags : Nat) (ok : Bool)
  | sysGetsockopt (fd : Nat) (ok : Bool)
  | sysClose (fd : Nat) (ok : Bool)
  | handleRequest (fd : Nat)
deriving DecidableEq

def isSetgidEv : Event → Bool
  | Event.sysSetgid _ _ => true
  | _ => false

def isSetuidEv : Event → Bool
  | Event.sysSetuid _ _ => true
  | _ => false

def isHandleEv : Event → Bool
  | Event.handleRequest _ => true
  | _ => false

def isCloseEv : Event → Bool
  | Event.sysClose _ _ => true
  | _ => false

/- ----------------------------------------------------------------- -/
/- signame (nslcd.c lines 141-194).                                   -/
/- ----------------------------------------------------------------- -/

/-- Translation of signame: the switch over signal numbers, with the
conditionally-compiled cases present (they are all defined on Linux). -/
def signame (signum : Nat) : String :=
  if signum = SIGHUP then "SIGHUP"
  else if signum = SIGINT then "SIGINT"
  else if signum = SIGQUIT then "SIGQUIT"
  else if signum = SIGILL then "SIGILL"
  else if signum = SIGABRT then "SIGABRT"
  else if signum = SIGFPE then "SIGFPE"
  else if signum = SIGKILL then "SIGKILL"
  else if signum = SIGSEGV then "SIGSEGV"
  else if signum = SIGPIPE then "SIGPIPE"
  else if signum = SIGALRM then "SIGALRM"
  else if signum = SIGTERM then "SIGTERM"
  else if signum = SIGUSR1 then "SIGUSR1"
  else if signum = SIGUSR2 then "SIGUSR2"
  else if signum = SIGCHLD then "SIGCHLD"
  else if signum = SIGCONT then "SIGCONT"
  else if signum = SIGSTOP then "SIGSTOP"
  else if signum = SIGTSTP then "SIGTSTP"
  else if signum = SIGTTIN then "SIGTTIN"
  else if signum = SIGTTOU then "SIGTTOU"
  else if signum = SIGBUS then "SIGBUS"
  else if signum = SIGPOLL then "SIGPOLL"
  else if signum = SIGPROF then "SIGPROF"
  else if signum = SIGSYS then "SIGSYS"
  else if signum = SIGTRAP then "SIGTRAP"
  else if signum = SIGURG then "SIGURG"
  else if signum = SIGVTALRM then "SIGVTALRM"
  else if signum = SIGXCPU then "SIGXCPU"
  else if signum = SIGXFSZ then "SIGXFSZ"
  else "UNKNOWN"

/-- The signal numbers with a case of their own in signame. -/
def knownSignalNums : List Nat :=
  [SIGHUP, SIGINT, SIGQUIT, SIGILL, SIGABRT, SIGFPE, SIGKILL, SIGSEGV,
   SIGPIPE, SIGALRM, SIGTERM, SIGUSR1, SIGUSR2, SIGCHLD, SIGCONT, SIGSTOP,
   SIGTSTP, SIGTTIN, SIGTTOU, SIGBUS, SIGPOLL, SIGPROF, SIGSYS, SIGTRAP,
   SIGURG, SIGVTALRM, SIGXCPU, SIGXFSZ]

/- ----------------------------------------------------------------- -/
/- Globals and the signal handler (nslcd.c lines 55-64, 197-201).     -/
/- ----------------------------------------------------------------- -/

/-- The daemon's global variables (nslcd.c lines 55-64). -/
structure Globals where
  nslcd_debugging : Bool
  nslcd_exitsignal : Nat
  nslcd_serversocket : Int
deriving DecidableEq

/-- Translation of sigexit_handler: the handler body stores the signal
number into nslcd_exitsignal and does nothing else (nslcd.c 197-201). -/
def sigexit_handler (signum : Nat) (g : Globals) : Globals :=
  { g with nslcd_exitsignal := signum }

/-- The fixed signal set the daemon routes to sigexit_handler in main
(nslcd.c lines 447-454). -/
def installedSignals : List Nat :=
  [SIGHUP, SIGINT, SIGQUIT, SIGABRT, SIGPIPE, SIGTERM, SIGUSR1, SIGUSR2]

/-- Delivery of a batch of signals: each runs sigexit_handler. -/
def deliverAll (sigs : List Nat) (g : Globals) : Globals :=
  sigs.foldl (fun st s => sigexit_handler s st) g

/- ----------------------------------------------------------------- -/
/- Connection handling (nslcd.c lines 216-283).                       -/
/- ----------------------------------------------------------------- -/

/-- Per-connection outcomes of the system calls made while accepting and
dispatching one connection. -/
structure ConnEnv where
  acceptRes : AcceptRes
  getflRes : Option Nat
  setflOk : Bool
  closeOk : Bool
  peercred : Option (Nat × Nat × Nat)
deriving DecidableEq

/-- The close-with-warning pattern used on the error paths:
if (close(csock)) log_log(LOG_WARNING,...). -/
def closeWithWarn (fd : Nat) (closeOk : Bool) : List Event :=
  Event.sysClose fd closeOk ::
    (if closeOk then [] else [Event.log .warning "problem closing socket: %s"])

/-- Translation of handleconnection (nslcd.c 216-240): query peer
credentials with getsockopt(SO_PEERCRED); on failure log and close; on
success log the peer pid/uid/gid at LOG_INFO and invoke
nslcd_server_handlerequest, without closing the descriptor. -/
def handleconnection (csock : Nat) (cenv : ConnEnv) : List Event :=
  match cenv.peercred with
  | none =>
    [Event.sysGetsockopt csock false,
     Event.log .err "getsockopt(SO_PEERCRED) failed: %s"] ++
    closeWithWarn csock cenv.closeOk
  | some (p, u, gd) =>
    [Event.sysGetsockopt csock true,
     Event.log .info ("connection from pid=" ++ decStr p ++ " uid=" ++
                      decStr u ++ " gid=" ++ decStr gd),
     Event.handleRequest csock]

/-- The test (errno==EINTR)||(errno==EAGAIN)||(errno==EWOULDBLOCK)
from nslcd.c line 256. -/
def isTransientErrno (e : Nat) : Bool :=
  (e == EINTR) || (e == EAGAIN) || (e == EWOULDBLOCK)

/-- Translation of acceptconnection (nslcd.c 243-283): accept on the
server socket; on transient failure log at LOG_DEBUG and return, on other
failure log at LOG_ERR and return; on success clear O_NONBLOCK via
fcntl(F_GETFL)/fcntl(F_SETFL), closing and dropping the connection if
either fcntl fails, and otherwise hand the socket to handleconnection. -/
def acceptconnection (srv : Int) (cenv : ConnEnv) : List Event :=
  match cenv.acceptRes with
  | AcceptRes.fail e =>
    if isTransientErrno e then
      [Event.sysAccept srv (AcceptRes.fail e),
       Event.log .debug "debug: accept() failed (ignored): %s"]
    else
      [Event.sysAccept srv (AcceptRes.fail e),
       Event.log .err "accept() failed: %s"]
  | AcceptRes.conn csock =>
    Event.sysAccept srv (AcceptRes.conn csock) ::
    match cenv.getflRes with
    | none =>
      [Event.sysGetfl csock none,
       Event.log .err "fctnl(F_GETFL) failed: %s"] ++
      closeWithWarn csock cenv.closeOk
    | some j =>
      Event.sysGetfl csock (some j) ::
      (if cenv.setflOk then
        Event.sysSetfl csock (j &&& nonblockMask) true ::
        handleconnection csock cenv
      else
        [Event.sysSetfl csock (j &&& nonblockMask) false,
         Event.log .err "fctnl(F_SETFL,~O_NONBLOCK) failed: %s"] ++
        closeWithWarn csock cenv.closeOk)

/- ----------------------------------------------------------------- -/
/- The serving loop (nslcd.c lines 461-465) and shutdown (466-475).   -/
/- ----------------------------------------------------------------- -/

/-- One iteration of the serving loop as scheduled by the environment:
the signals delivered while this iteration's acceptconnection runs, and
the outcomes of that iteration's system calls. -/
structure LoopIter where
  sigs : List Nat
  cenv : ConnEnv
deriving DecidableEq

/-- Translation of the while loop at nslcd.c 461-465 over a finite
schedule of iterations: while nslcd_exitsignal==0, run acceptconnection;
signals delivered during the iteration run sigexit_handler.  Returns the
final globals, the number of acceptconnection calls made, and the events.
A finite schedule that ends with the flag still zero simply stops (the
real loop would keep blocking on accept). -/
def servingLoop (g : Globals) : List LoopIter → Globals × Nat × List Event
  | [] => (g, 0, [])
  | it :: rest =>
    if g.nslcd_exitsignal = 0 then
      ((servingLoop (deliverAll it.sigs g) rest).1,
       (servingLoop (deliverAll it.sigs g) rest).2.1 + 1,
       acceptconnection g.nslcd_serversocket it.cenv ++
         (servingLoop (deliverAll it.sigs g) rest).2.2)
    else (g, 0, [])

/-- Translation of nslcd.c 466-475: after the loop, if nslcd_exitsignal
is nonzero log the caught signal by name and number, then return 1. -/
def shutdownTail (sig : Nat) : List Event × Nat :=
  (if sig ≠ 0 then
    [Event.log .info ("caught signal " ++ signame sig ++ " (" ++
                      decStr sig ++ "), shutting down")]
   else [], 1)

/- ----------------------------------------------------------------- -/
/- exithandler (nslcd.c lines 204-213).                               -/
/- ----------------------------------------------------------------- -/

/-- The set of open file descriptors, so that close(2) semantics can be
modelled: close succeeds exactly when the descriptor is open, and removes
it from the table. -/
structure FdWorld where
  openFds : List Nat
deriving DecidableEq

/-- close(2): succeeds exactly when fd is open; one occurrence of fd is
removed from the open table either way. -/
def closeFd (fd : Nat) (w : FdWorld) : Bool × FdWorld :=
  (decide (fd ∈ w.openFds), ⟨w.openFds.erase fd⟩)

/-- Translation of exithandler (nslcd.c 204-213): if the server socket
global is nonnegative, close it (logging a warning if close fails), then
log the bailing-out line.  The global itself is not modified: a repeated
invocation sees the same descriptor value. -/
def exithandler (serversock : Int) (w : FdWorld) : FdWorld × List Event :=
  if 0 ≤ serversock then
    ((closeFd serversock.toNat w).2,
     Event.sysClose serversock.toNat (closeFd serversock.toNat w).1 ::
       (if (closeFd serversock.toNat w).1 then []
        else [Event.log .warning
                "problem closing server socket (ignored): %s"]) ++
       [Event.log .info "version %s bailing out"])
  else (w, [Event.log .info "version %s bailing out"])

/- ----------------------------------------------------------------- -/
/- write_pidfile (nslcd.c lines 286-308).                             -/
/- ----------------------------------------------------------------- -/

/-- Outcomes of the stdio calls made by write_pidfile. -/
structure PidEnv where
  fopenOk : Bool
  fprintfRes : Int
  fcloseOk : Bool
deriving DecidableEq

/-- What write_pidfile did: events, whether it exited (and with which
status), and the file content on complete success. -/
structure PidOut where
  events : List Event
  exitCode : Option Nat
  content : Option (List Char)
deriving DecidableEq

/-- The bytes fprintf(fp,"%d\n",pid) writes for a nonnegative pid. -/
def pidContent (pid : Nat) : List Char := decDigits pid ++ ['\n']

/-- Translation of write_pidfile (nslcd.c 286-308): nothing for a NULL
filename; otherwise fopen, fprintf("%d\n",pid) and fclose, with any
failure (fopen NULL, fprintf result <= 0, fclose nonzero) logged at
LOG_ERR and fatal with exit(1). -/
def write_pidfile (filename : Option String) (pid : Nat) (env : PidEnv) :
    PidOut :=
  match filename with
  | none => ⟨[], none, none⟩
  | some fn =>
    if env.fopenOk then
      if env.fprintfRes ≤ 0 then
        ⟨[Event.log .err "error writing pid file (%s)"], some 1, none⟩
      else if env.fcloseOk then
        ⟨[Event.fileWrite fn (pidContent pid)], none, some (pidContent pid)⟩
      else
        ⟨[Event.log .err "error writing pid file (%s): %s"], some 1, none⟩
    else
      ⟨[Event.log .err "cannot open pid file (%s): %s"], some 1, none⟩

/- ----------------------------------------------------------------- -/
/- Command line parsing (nslcd.c lines 92-138).                       -/
/- ----------------------------------------------------------------- -/

/-- Output written by the command-line parser.  outUsage is
display_usage to the given stream, outVersion is display_version;
errUnrecognizedArg and errHint are the two stderr lines of the
leftover-argument and unknown-option paths.  getopt_long's own internal
stderr diagnostics are libc behaviour and are not modelled. -/
inductive CmdEvent where
  | outUsage
  | outVersion
  | errUnrecognizedArg (arg : List Char)
  | errHint
deriving DecidableEq

inductive CmdResult where
  | exited (code : Nat)
  | proceed (debugging : Bool)
deriving DecidableEq

structure ParseOut where
  events : List CmdEvent
  result : CmdResult
deriving DecidableEq

/-- The long option table nslcd_options (nslcd.c 92-100): name and the
short-option code getopt_long returns for it; all are no_argument. -/
def nslcd_options : List (List Char × Char) :=
  [("debug".data, 'd'), ("help".data, 'h'), ("version".data, 'V')]

/-- The NSLCD_OPTIONSTRING short options "dhV" (nslcd.c line 100). -/
def nslcd_optionstring : List Char := ['d', 'h', 'V']

/-- GNU getopt_long matching for one --name[=arg] body: options of which
the given name is a prefix; a unique match of a no_argument option with
no =arg yields its code, anything else is the error code. -/
def longOptMatch (body : List Char) : Option Char :=
  let nm := body.takeWhile (fun c => c ≠ '=')
  let hasArg := nm.length ≠ body.length
  match (nslcd_options.filter fun o => nm.isPrefixOf o.1) with
  | [o] => if hasArg then none else some o.2
  | _ => none

/-- The switch body of parse_cmdline (nslcd.c 109-127) for one returned
option code: d sets debugging (and the default log level, part of the
logging collaborator), h and V print to stdout and exit(0), and anything
unrecognized prints the try-help hint to stderr and exits(1). -/
def optAction (code : Option Char) : Sum ParseOut Bool :=
  match code with
  | some 'd' => Sum.inr true
  | some 'h' => Sum.inl ⟨[CmdEvent.outUsage], CmdResult.exited 0⟩
  | some 'V' => Sum.inl ⟨[CmdEvent.outVersion], CmdResult.exited 0⟩
  | _ => Sum.inl ⟨[CmdEvent.errHint], CmdResult.exited 1⟩

/-- A cluster of short options after one dash, processed left to right
by getopt with optstring "dhV". -/
def shortCluster : List Char → Bool → Sum ParseOut Bool
  | [], dbg => Sum.inr dbg
  | c :: cs, dbg =>
    if c ∈ nslcd_optionstring then
      match optAction (some c) with
      | Sum.inl out => Sum.inl out
      | Sum.inr dbg2 => shortCluster cs dbg2
    else
      Sum.inl ⟨[CmdEvent.errHint], CmdResult.exited 1⟩

/-- The leftover-argument check at nslcd.c 130-137: any remaining
non-option argument prints the unrecognized-option line and the hint to
stderr and exits(1). -/
def finishArgs (dbg : Bool) (pos : List (List Char)) : ParseOut :=
  match pos with
  | [] => ⟨[], CmdResult.proceed dbg⟩
  | a :: _ =>
    ⟨[CmdEvent.errUnrecognizedArg a, CmdEvent.errHint], CmdResult.exited 1⟩

/-- The getopt_long loop of parse_cmdline (nslcd.c 103-138) over the
arguments after argv[0]: with GNU argument permutation, non-option
arguments are collected and checked after option processing; a bare --
ends option processing. -/
def parseGo : List (List Char) → Bool → List (List Char) → ParseOut
  | [], dbg, pos => finishArgs dbg pos
  | a :: rest, dbg, pos =>
    match a with
    | '-' :: '-' :: body =>
      if body = [] then finishArgs dbg (pos ++ rest)
      else
        match optAction (longOptMatch body) with
        | Sum.inl out => out
        | Sum.inr dbg2 => parseGo rest dbg2 pos
    | '-' :: c :: cs =>
      match shortCluster (c :: cs) dbg with
      | Sum.inl out => out
      | Sum.inr dbg2 => parseGo rest dbg2 pos
    | _ => parseGo rest dbg (pos ++ [a])

/-- parse_cmdline on the whole argv vector (argv[0] is the program
name). -/
def parse_cmdline (argv : List String) : ParseOut :=
  parseGo ((argv.drop 1).map String.data) false []

/- ----------------------------------------------------------------- -/
/- Startup sequence of main (nslcd.c lines 328-459).                  -/
/- ----------------------------------------------------------------- -/

/-- Modelled from the spec: NSLCD_PIDFILE, the fixed well-known PID file
path, is a macro from a header that is not under src/; the spec fixes it
as a non-NULL configurable path and its exact value is immaterial here. -/
def nslcdPidfilePath : String := "/var/run/nslcd/nslcd.pid"

/-- Outcomes of the system calls made during startup.  sigFails is the
set of signal numbers whose sigaction installation fails. -/
structure StartupEnv where
  debugging : Bool
  daemonOk : Bool
  pid : Nat
  fopenOk : Bool
  fprintfRes : Int
  fcloseOk : Bool
  serverFd : Int
  setgroupsOk : Bool
  setgidOk : Bool
  setuidOk : Bool
  sigFails : List Nat
deriving DecidableEq

/-- Translation of main from the daemonize step through the server
socket creation (nslcd.c 356-377): daemonize unless debugging (fatal on
failure), umask(0022), start logging unless debugging, log the starting
line, register exithandler with atexit, write the PID file (fatal on
failure inside write_pidfile), open the server socket. -/
def startupPre (env : StartupEnv) : List Event × Option Nat :=
  let daemonEvs := if env.debugging then [] else [Event.sysDaemon env.daemonOk]
  if !env.debugging && !env.daemonOk then
    (daemonEvs ++ [Event.log .err "unable to daemonize: %s"], some 1)
  else
    let evs1 := daemonEvs ++ [Event.sysUmask 0o022] ++
      (if env.debugging then [] else [Event.startLogging]) ++
      [Event.log .info "version %s starting", Event.atexitRegister]
    let pres := write_pidfile (some nslcdPidfilePath) env.pid
      ⟨env.fopenOk, env.fprintfRes, env.fcloseOk⟩
    match pres.exitCode with
    | some c => (evs1 ++ pres.events, some c)
    | none => (evs1 ++ pres.events ++ [Event.serverOpen env.serverFd], none)

/-- Translation of the privilege-drop section of main (nslcd.c 379-428,
with HAVE_SETGROUPS defined and the inactive USE_CAPABILITIES scaffolding
compiled out): attempt setgroups(0,NULL) (warning only on failure), then
setgid(mygid) if mygid is not (gid_t)-1 (fatal on failure), then
setuid(myuid) if myuid is not (uid_t)-1 (fatal on failure).  The two
locals mygid and myuid are parameters here; main instantiates them with
the constants it declares. -/
def privdrop (mygid myuid : Nat) (env : StartupEnv) : List Event × Option Nat :=
  let grpEvs :=
    if env.setgroupsOk then
      [Event.sysSetgroups true, Event.log .debug "debug: setgroups(0,NULL) done"]
    else
      [Event.sysSetgroups false,
       Event.log .warning "cannot setgroups(0,NULL) (ignored): %s"]
  let afterGid : List Event × Option Nat :=
    if mygid ≠ gidNone then
      if env.setgidOk then
        (grpEvs ++ [Event.sysSetgid mygid true,
                    Event.log .debug "debug: setgid(%d) done"], none)
      else
        (grpEvs ++ [Event.sysSetgid mygid false,
                    Event.log .err "cannot setgid(%d): %s"], some 1)
    else (grpEvs, none)
  match afterGid with
  | (evs, some c) => (evs, some c)
  | (evs, none) =>
    if myuid ≠ uidNone then
      if env.setuidOk then
        (evs ++ [Event.sysSetuid myuid true,
                 Event.log .debug "debug: setuid(%d) done"], none)
      else
        (evs ++ [Event.sysSetuid myuid false,
                 Event.log .err "cannot setuid(%d): %s"], some 1)
    else (evs, none)

/-- Translation of install_sighandler (nslcd.c 311-324): install the
handler with sigaction, logging and exiting(1) on failure. -/
def install_sighandler (signum : Nat) (env : StartupEnv) :
    List Event × Option Nat :=
  if signum ∈ env.sigFails then
    ([Event.sigInstall signum false,
      Event.log .err "error installing signal handler for '%s': %s"], some 1)
  else ([Event.sigInstall signum true], none)

/-- The block of install_sighandler calls (nslcd.c 447-454), stopping at
the first fatal failure. -/
def installAll : List Nat → StartupEnv → List Event × Option Nat
  | [], _ => ([], none)
  | s :: rest, env =>
    match install_sighandler s env with
    | (evs, some c) => (evs, some c)
    | (evs, none) =>
      ((evs ++ (installAll rest env).1), (installAll rest env).2)

/-- The startup sequence of main with the two locals mygid and myuid as
parameters (nslcd.c 328-459): startupPre, then the privilege drop, then
the signal handler installations, then the accepting-connections line.
The second component is the exit status when startup exits early. -/
def mainStartupWith (mygid myuid : Nat) (env : StartupEnv) :
    List Event × Option Nat :=
  match startupPre env with
  | (evs, some c) => (evs, some c)
  | (evs, none) =>
    match privdrop mygid myuid env with
    | (evs2, some c) => (evs ++ evs2, some c)
    | (evs2, none) =>
      match installAll installedSignals env with
      | (evs3, some c) => (evs ++ evs2 ++ evs3, some c)
      | (evs3, none) =>
        (evs ++ evs2 ++ evs3 ++ [Event.log .info "accepting connections"], none)

/-- The startup sequence of main as compiled: the locals are initialized
as gid_t mygid=-1 and uid_t myuid=-1 (nslcd.c 330-331) and never
assigned afterwards. -/
def mainStartup (env : StartupEnv) : List Event × Option Nat :=
  mainStartupWith gidNone uidNone env

/- ----------------------------------------------------------------- -/
/- Projections used by the claims about privilege-call ordering.      -/
/- ----------------------------------------------------------------- -/

/-- The three privilege-changing system calls of the drop pipeline. -/
inductive PrivCall where
  | setgroupsC
  | setgidC
  | setuidC
deriving DecidableEq

def privCallOf : Event → Option PrivCall
  | Event.sysSetgroups _ => some PrivCall.setgroupsC
  | Event.sysSetgid _ _ => some PrivCall.setgidC
  | Event.sysSetuid _ _ => some PrivCall.setuidC
  | _ => none

/-- The subsequence of privilege-changing calls in a trace, in order. -/
def privCalls (t : List Event) : List PrivCall := t.filterMap privCallOf

/- ----------------------------------------------------------------- -/
/- Helper lemmas.                                                     -/
/- ----------------------------------------------------------------- -/

theorem digitToChar_isDigit (d : Nat) (h : d < 10) :
    (digitToChar d).isDigit = true := by
  interval_cases d <;> decide

theorem charToDigit_digitToChar (d : Nat) (h : d < 10) :
    charToDigit (digitToChar d) = d := by
  interval_cases d <;> decide

theorem decDigitsAux_digits (fuel : Nat) :
    ∀ n, ∀ c ∈ decDigitsAux fuel n, c.isDigit = true := by
  induction fuel with
  | zero => intro n c hc; simp [decDigitsAux] at hc
  | succ f ih =>
    intro n c hc
    simp only [decDigitsAux] at hc
    by_cases h : n < 10
    · rw [if_pos h] at hc
      simp only [List.mem_singleton] at hc
      subst hc
      exact digitToChar_isDigit n h
    · rw [if_neg h] at hc
      rcases List.mem_append.mp hc with hc | hc
      · exact ih (n / 10) c hc
      · simp only [List.mem_singleton] at hc
        subst hc
        exact digitToChar_isDigit _ (Nat.mod_lt _ (by norm_num))

theorem valOfDigits_append_one (l : List Char) (c : Char) :
    valOfDigits (l ++ [c]) = 10 * valOfDigits l + charToDigit c := by
  simp [valOfDigits, List.foldl_append]

theorem valOfDigits_decDigitsAux (fuel : Nat) :
    ∀ n, n < fuel → valOfDigits (decDigitsAux fuel n) = n := by
  induction fuel with
  | zero => intro n h; omega
  | succ f ih =>
    intro n h
    simp only [decDigitsAux]
    by_cases h10 : n < 10
    · rw [if_pos h10]
      simp [valOfDigits, charToDigit_digitToChar n h10]
    · rw [if_neg h10]
      rw [valOfDigits_append_one]
      have hdiv : n / 10 < f := by
        have := Nat.div_lt_self (show 0 < n by omega) (show 1 < 10 by norm_num)
        omega
      rw [ih (n / 10) hdiv, charToDigit_digitToChar _ (Nat.mod_lt _ (by norm_num))]
      omega

theorem takeWhile_append_all (p : Char → Bool) (l r : List Char)
    (h : ∀ c ∈ l, p c = true) :
    (l ++ r).takeWhile p = l ++ r.takeWhile p := by
  induction l with
  | nil => simp
  | cons a t ih =>
    simp only [List.cons_append, List.takeWhile]
    rw [h a (by simp)]
    simp only [List.cons.injEq, true_and]
    exact ih (fun c hc => h c (by simp [hc]))

theorem decDigits_ne_nil (n : Nat) : decDigits n ≠ [] := by
  unfold decDigits
  simp only [decDigitsAux]
  by_cases h : n < 10 <;> simp [h]

theorem parsePid_pidContent (pid : Nat) : parsePid (pidContent pid) = some pid := by
  have hdig : ∀ c ∈ decDigits pid, Char.isDigit c = true :=
    fun c hc => decDigitsAux_digits (pid + 1) pid c hc
  have ht : (decDigits pid ++ ['\n']).takeWhile Char.isDigit = decDigits pid := by
    rw [takeWhile_append_all Char.isDigit (decDigits pid) ['\n'] hdig]
    simp [List.takeWhile]
  have hd : (decDigits pid ++ ['\n']).drop (decDigits pid).length = ['\n'] :=
    List.drop_left (decDigits pid) ['\n']
  have hv := valOfDigits_decDigitsAux (pid + 1) pid (Nat.lt_succ_self pid)
  have hne : decDigitsAux (pid + 1) pid ≠ [] := decDigits_ne_nil pid
  simp only [parsePid, pidContent, ht, hd]
  simp [hv, hne, decDigits]

theorem signame_eq_unknown (s : Nat) (h : s ∉ knownSignalNums) :
    signame s = "UNKNOWN" := by
  simp only [knownSignalNums, List.mem_cons, List.not_mem_nil, or_false,
    not_or] at h
  obtain ⟨h1, h2, h3, h4, h5, h6, h7, h8, h9, h10, h11, h12, h13, h14, h15,
          h16, h17, h18, h19, h20, h21, h22, h23, h24, h25, h26, h27, h28⟩ := h
  simp only [signame, if_neg h1, if_neg h2, if_neg h3, if_neg h4, if_neg h5,
    if_neg h6, if_neg h7, if_neg h8, if_neg h9, if_neg h10, if_neg h11,
    if_neg h12, if_neg h13, if_neg h14, if_neg h15, if_neg h16, if_neg h17,
    if_neg h18, if_neg h19, if_neg h20, if_neg h21, if_neg h22, if_neg h23,
    if_neg h24, if_neg h25, if_neg h26, if_neg h27, if_neg h28]

/- ----------------------------------------------------------------- -/
/- Claim theorems.                                                    -/
/- ----------------------------------------------------------------- -/

/-- Claim C7: writing the PID file produces exactly the decimal string of
the process's own PID followed by a single newline and nothing else, and
reading it back round-trips; any failure to open, write, or close the
file is logged at error level and fatal with exit status 1. -/
theorem c7_pidfile_roundtrip_and_fatal (fn : String) (pid : Nat) (env : PidEnv) :
    (env.fopenOk = true → env.fprintfRes > 0 → env.fcloseOk = true →
      write_pidfile (some fn) pid env =
        ⟨[Event.fileWrite fn (pidContent pid)], none, some (pidContent pid)⟩ ∧
      pidContent pid = decDigits pid ++ ['\n'] ∧
      parsePid (pidContent pid) = some pid) ∧
    (env.fopenOk = false →
      write_pidfile (some fn) pid env =
        ⟨[Event.log .err "cannot open pid file (%s): %s"], some 1, none⟩) ∧
    (env.fopenOk = true → env.fprintfRes ≤ 0 →
      write_pidfile (some fn) pid env =
        ⟨[Event.log .err "error writing pid file (%s)"], some 1, none⟩) ∧
    (env.fopenOk = true → env.fprintfRes > 0 → env.fcloseOk = false →
      write_pidfile (some fn) pid env =
        ⟨[Event.log .err "error writing pid file (%s): %s"], some 1, none⟩) := by
  refine ⟨fun h1 h2 h3 => ?_, fun h1 => ?_, fun h1 h2 => ?_, fun h1 h2 h3 => ?_⟩
  · have hres : ¬env.fprintfRes ≤ 0 := by omega
    refine ⟨?_, rfl, parsePid_pidContent pid⟩
    simp [write_pidfile, h1, h3, hres]
  · simp [write_pidfile, h1]
  · simp [write_pidfile, h1, h2]
  · have hres : ¬env.fprintfRes ≤ 0 := by omega
    simp [write_pidfile, h1, h3, hres]

/-- Witness for C7 at concrete inputs: a successful write of PID 1234
and the three failure modes. -/
theorem c7_pidfile_roundtrip_and_fatal_witness :
    (write_pidfile (some "pidfile") 1234 ⟨true, 5, true⟩ =
      ⟨[Event.fileWrite "pidfile" (pidContent 1234)], none,
       some (pidContent 1234)⟩ ∧
     pidContent 1234 = decDigits 1234 ++ ['\n'] ∧
     parsePid (pidContent 1234) = some 1234) ∧
    write_pidfile (some "pidfile") 1234 ⟨false, 5, true⟩ =
      ⟨[Event.log .err "cannot open pid file (%s): %s"], some 1, none⟩ ∧
    write_pidfile (some "pidfile") 1234 ⟨true, 0, true⟩ =
      ⟨[Event.log .err "error writing pid file (%s)"], some 1, none⟩ ∧
    write_pidfile (some "pidfile") 1234 ⟨true, 5, false⟩ =
      ⟨[Event.log .err "error writing pid file (%s): %s"], some 1, none⟩ := by
  refine ⟨(c7_pidfile_roundtrip_and_fatal "pidfile" 1234 ⟨true, 5, true⟩).1
            rfl (by norm_num) rfl,
          (c7_pidfile_roundtrip_and_fatal "pidfile" 1234 ⟨false, 5, true⟩).2.1
            rfl,
          (c7_pidfile_roundtrip_and_fatal "pidfile" 1234 ⟨true, 0, true⟩).2.2.1
            rfl (by norm_num),
          (c7_pidfile_roundtrip_and_fatal "pidfile" 1234 ⟨true, 5, false⟩).2.2.2
            rfl (by norm_num) rfl⟩

/-- Claim C8: on leaving the serving loop with a nonzero ExitSignal the
daemon logs the line caught signal NAME (N), shutting down, where the
name of a signal number outside the known set is UNKNOWN, and main
returns the nonzero status 1. -/
theorem c8_shutdown_log (sig : Nat) :
    (sig ≠ 0 →
      shutdownTail sig =
        ([Event.log .info ("caught signal " ++ signame sig ++ " (" ++
                           decStr sig ++ "), shutting down")], 1) ∧
      (shutdownTail sig).2 ≠ 0) ∧
    (sig ∉ knownSignalNums → signame sig = "UNKNOWN") := by
  constructor
  · intro h
    constructor
    · simp [shutdownTail, h]
    · simp [shutdownTail]
  · exact signame_eq_unknown sig

/-- Witness for C8: the SIGTERM scenario produces exactly the log line
of the spec scenario, and the out-of-set number 64 reports UNKNOWN. -/
theorem c8_shutdown_log_witness :
    (shutdownTail 15).1 =
      [Event.log .info "caught signal SIGTERM (15), shutting down"] ∧
    (shutdownTail 15).2 ≠ 0 ∧
    signame 64 = "UNKNOWN" := by
  have h15 := (c8_shutdown_log 15).1 (by decide)
  have h64 := (c8_shutdown_log 64).2 (by decide)
  refine ⟨?_, h15.2, h64⟩
  rw [show (shutdownTail 15).1 =
      [Event.log .info ("caught signal " ++ signame 15 ++ " (" ++
                        decStr 15 ++ "), shutting down")] from
    congrArg Prod.fst h15.1]
  rfl

/-- Claim C9 counterexample: with server socket 4 open, the first
invocation of exithandler closes it, but a second invocation calls
close(4) again, which fails and is logged as a warning; so invoking the
close operation twice does produce an error, refuting the claim that it
produces no error and no double-close fault. -/
theorem c9_close_counterexample :
    (exithandler 4 ⟨[4]⟩).2 =
      [Event.sysClose 4 true, Event.log .info "version %s bailing out"] ∧
    (exithandler 4 (exithandler 4 ⟨[4]⟩).1).2 =
      [Event.sysClose 4 false,
       Event.log .warning "problem closing server socket (ignored): %s",
       Event.log .info "version %s bailing out"] := by
  decide

/-- Claim C9 as amended: closing when the handle is invalid (negative
descriptor) skips the close entirely (only the bailing-out line is
logged); but because exithandler never invalidates the descriptor,
invoking it twice with a valid open descriptor calls close twice, and
the second close fails and is logged as an ignored warning rather than
being a silent no-op. -/
theorem c9_close_amended (sock : Int) (w : FdWorld) :
    (sock < 0 →
      exithandler sock w = (w, [Event.log .info "version %s bailing out"])) ∧
    (0 ≤ sock → w.openFds.count sock.toNat = 1 →
      (exithandler sock w).2 =
        [Event.sysClose sock.toNat true,
         Event.log .info "version %s bailing out"] ∧
      (exithandler sock (exithandler sock w).1).2 =
        [Event.sysClose sock.toNat false,
         Event.log .warning "problem closing server socket (ignored): %s",
         Event.log .info "version %s bailing out"]) := by
  constructor
  · intro h
    rw [exithandler, if_neg (by omega)]
  · intro h hc
    have hmem : sock.toNat ∈ w.openFds := by
      have : 0 < w.openFds.count sock.toNat := by omega
      exact List.count_pos_iff.mp this
    have hmem2 : sock.toNat ∉ w.openFds.erase sock.toNat := by
      have := List.count_erase_self sock.toNat w.openFds
      rw [hc] at this
      exact List.count_eq_zero.mp this
    constructor
    · simp [exithandler, closeFd, h, hmem]
    · simp [exithandler, closeFd, h, hmem, hmem2]

/-- Witness for the amended C9 at concrete inputs: an invalid handle is
a no-op apart from the log line, and a double invocation on open
descriptor 4 fails the second close. -/
theorem c9_close_amended_witness :
    exithandler (-1) ⟨[4]⟩ =
      (⟨[4]⟩, [Event.log .info "version %s bailing out"]) ∧
    (exithandler 4 ⟨[4]⟩).2 =
      [Event.sysClose 4 true, Event.log .info "version %s bailing out"] ∧
    (exithandler 4 (exithandler 4 ⟨[4]⟩).1).2 =
      [Event.sysClose 4 false,
       Event.log .warning "problem closing server socket (ignored): %s",
       Event.log .info "version %s bailing out"] := by
  refine ⟨(c9_close_amended (-1) ⟨[4]⟩).1 (by norm_num), ?_, ?_⟩
  · exact ((c9_close_amended 4 ⟨[4]⟩).2 (by norm_num) (by decide)).1
  · exact ((c9_close_amended 4 ⟨[4]⟩).2 (by norm_num) (by decide)).2

/-- Claim C6 (code bug): the usage text documents -f, --config=FILE, but
the option table nslcd_options and the optstring dhV do not include it:
-f and --config are treated as unknown options, printing the try-help
hint to stderr and exiting 1; --help and --version do print to stdout
and exit 0, and a stray positional argument exits 1 with the hint. -/
theorem c6_config_option_rejected :
    parse_cmdline ["nslcd", "-f", "/etc/nslcd.conf"] =
      ⟨[CmdEvent.errHint], CmdResult.exited 1⟩ ∧
    parse_cmdline ["nslcd", "--config", "/etc/nslcd.conf"] =
      ⟨[CmdEvent.errHint], CmdResult.exited 1⟩ ∧
    parse_cmdline ["nslcd", "--config=/etc/nslcd.conf"] =
      ⟨[CmdEvent.errHint], CmdResult.exited 1⟩ ∧
    parse_cmdline ["nslcd", "--help"] =
      ⟨[CmdEvent.outUsage], CmdResult.exited 0⟩ ∧
    parse_cmdline ["nslcd", "--version"] =
      ⟨[CmdEvent.outVersion], CmdResult.exited 0⟩ ∧
    parse_cmdline ["nslcd", "-d"] = ⟨[], CmdResult.proceed true⟩ ∧
    parse_cmdline ["nslcd", "stray"] =
      ⟨[CmdEvent.errUnrecognizedArg "stray".data, CmdEvent.errHint],
       CmdResult.exited 1⟩ := by
  decide

theorem installed_ne_zero (s : Nat) (h : s ∈ installedSignals) : s ≠ 0 := by
  simp [installedSignals, SIGHUP, SIGINT, SIGQUIT, SIGABRT, SIGPIPE, SIGTERM,
    SIGUSR1, SIGUSR2] at h
  rcases h with h | h | h | h | h | h | h | h <;> omega

theorem deliverAll_ne_zero (sigs : List Nat) :
    ∀ g : Globals, (∀ s ∈ sigs, s ≠ 0) →
    (g.nslcd_exitsignal ≠ 0 ∨ sigs ≠ []) →
    (deliverAll sigs g).nslcd_exitsignal ≠ 0 := by
  induction sigs with
  | nil =>
    intro g _ hd
    rcases hd with hd | hd
    · exact hd
    · exact absurd rfl hd
  | cons s rest ih =>
    intro g hall _
    show (deliverAll rest (sigexit_handler s g)).nslcd_exitsignal ≠ 0
    apply ih
    · exact fun x hx => hall x (List.mem_cons_of_mem s hx)
    · left
      simpa [sigexit_handler] using hall s (List.mem_cons_self s rest)

theorem servingLoop_stop (g : Globals) (sched : List LoopIter)
    (h : g.nslcd_exitsignal ≠ 0) : servingLoop g sched = (g, 0, []) := by
  cases sched with
  | nil => rfl
  | cons hd tl => simp [servingLoop, h]

theorem servingLoop_iters_le (sched : List LoopIter) :
    ∀ (g : Globals) (k : Nat) (it : LoopIter),
    (∀ itm ∈ sched, ∀ s ∈ itm.sigs, s ∈ installedSignals) →
    sched.get? k = some it → it.sigs ≠ [] →
    (servingLoop g sched).2.1 ≤ k + 1 := by
  induction sched with
  | nil => intro g k it _ hk _; simp at hk
  | cons hd tl ih =>
    intro g k it hall hk hne
    by_cases hf : g.nslcd_exitsignal = 0
    · have hls : servingLoop g (hd :: tl) =
          ((servingLoop (deliverAll hd.sigs g) tl).1,
           (servingLoop (deliverAll hd.sigs g) tl).2.1 + 1,
           acceptconnection g.nslcd_serversocket hd.cenv ++
             (servingLoop (deliverAll hd.sigs g) tl).2.2) := by
        simp [servingLoop, hf]
      rw [hls]
      cases k with
      | zero =>
        have hit : hd = it := by simpa using hk
        have h2 : (deliverAll hd.sigs g).nslcd_exitsignal ≠ 0 := by
          apply deliverAll_ne_zero
          · intro x hx
            exact installed_ne_zero x (hall hd (by simp) x hx)
          · right
            rw [hit]
            exact hne
        rw [servingLoop_stop _ tl h2]
      | succ k2 =>
        have hk2 : tl.get? k2 = some it := by simpa using hk
        have hb := ih (deliverAll hd.sigs g) k2 it
          (fun itm hm => hall itm (by simp [hm])) hk2 hne
        simpa using Nat.add_le_add_right hb 1
    · rw [servingLoop_stop g _ hf]
      simp

/-- Claim C2: each installed signal delivery stores exactly that signal
number into nslcd_exitsignal and nothing else, all installed signal
numbers are nonzero so ExitSignal stays set once set (never reset by any
delivery or loop step), and once a signal is delivered during iteration
k the serving loop performs at most one more acceptconnection cycle
(at most k+1 cycles in total). -/
theorem c2_exit_signal_contract :
    (∀ (s : Nat) (g : Globals),
      (sigexit_handler s g).nslcd_exitsignal = s ∧
      (sigexit_handler s g).nslcd_serversocket = g.nslcd_serversocket ∧
      (sigexit_handler s g).nslcd_debugging = g.nslcd_debugging) ∧
    (∀ s ∈ installedSignals, s ≠ 0) ∧
    (∀ (sigs : List Nat) (g : Globals), (∀ s ∈ sigs, s ∈ installedSignals) →
      g.nslcd_exitsignal ≠ 0 → (deliverAll sigs g).nslcd_exitsignal ≠ 0) ∧
    (∀ (g : Globals) (sched : List LoopIter), g.nslcd_exitsignal ≠ 0 →
      (servingLoop g sched).2.1 = 0) ∧
    (∀ (g : Globals) (sched : List LoopIter) (k : Nat) (it : LoopIter),
      (∀ itm ∈ sched, ∀ s ∈ itm.sigs, s ∈ installedSignals) →
      sched.get? k = some it → it.sigs ≠ [] →
      (servingLoop g sched).2.1 ≤ k + 1) := by
  refine ⟨fun s g => ⟨rfl, rfl, rfl⟩, installed_ne_zero, ?_, ?_, ?_⟩
  · intro sigs g hall hg
    exact deliverAll_ne_zero sigs g
      (fun s hs => installed_ne_zero s (hall s hs)) (Or.inl hg)
  · intro g sched hg
    rw [servingLoop_stop g sched hg]
  · intro g sched k it hall hk hne
    exact servingLoop_iters_le sched g k it hall hk hne

/-- Witness for C2: SIGTERM delivery on concrete globals, preservation
of a set flag, immediate loop exit with a set flag, and the at-most-one
extra cycle bound on a three-iteration schedule with SIGTERM delivered
in the first iteration. -/
theorem c2_exit_signal_contract_witness :
    (sigexit_handler 15 ⟨false, 0, 3⟩).nslcd_exitsignal = 15 ∧
    (15 : Nat) ≠ 0 ∧
    (deliverAll [2] ⟨false, 15, 3⟩).nslcd_exitsignal ≠ 0 ∧
    (servingLoop ⟨false, 15, 3⟩
      [⟨[], ⟨AcceptRes.fail 4, none, true, true, none⟩⟩]).2.1 = 0 ∧
    (servingLoop ⟨false, 0, 3⟩
      [⟨[15], ⟨AcceptRes.fail 4, none, true, true, none⟩⟩,
       ⟨[], ⟨AcceptRes.fail 4, none, true, true, none⟩⟩,
       ⟨[], ⟨AcceptRes.fail 4, none, true, true, none⟩⟩]).2.1 ≤ 1 := by
  refine ⟨(c2_exit_signal_contract.1 15 ⟨false, 0, 3⟩).1,
          c2_exit_signal_contract.2.1 15 (by decide),
          c2_exit_signal_contract.2.2.1 [2] ⟨false, 15, 3⟩ (by decide)
            (by decide),
          c2_exit_signal_contract.2.2.2.1 ⟨false, 15, 3⟩ _ (by decide),
          c2_exit_signal_contract.2.2.2.2 ⟨false, 0, 3⟩ _ 0
            ⟨[15], ⟨AcceptRes.fail 4, none, true, true, none⟩⟩
            (by decide) (by decide) (by decide)⟩

/-- Claim C3: an accept failure with a transient errno (EINTR, EAGAIN,
EWOULDBLOCK) is logged at debug level; any other accept failure is
logged at error level; in both cases acceptconnection just returns to
the loop without invoking the handler, and the loop retries with its
globals (including ExitSignal) unchanged. -/
theorem c3_accept_failure_retry (srv : Int) (cenv : ConnEnv) (e : Nat)
    (hacc : cenv.acceptRes = AcceptRes.fail e) :
    (isTransientErrno e = true →
      acceptconnection srv cenv =
        [Event.sysAccept srv (AcceptRes.fail e),
         Event.log .debug "debug: accept() failed (ignored): %s"]) ∧
    (isTransientErrno e = false →
      acceptconnection srv cenv =
        [Event.sysAccept srv (AcceptRes.fail e),
         Event.log .err "accept() failed: %s"]) ∧
    ((acceptconnection srv cenv).all fun ev => !isHandleEv ev) = true ∧
    (∀ (g : Globals) (rest : List LoopIter), g.nslcd_exitsignal = 0 →
      servingLoop g (⟨[], cenv⟩ :: rest) =
        ((servingLoop g rest).1, (servingLoop g rest).2.1 + 1,
         acceptconnection g.nslcd_serversocket cenv ++
           (servingLoop g rest).2.2)) := by
  refine ⟨fun h => by simp [acceptconnection, hacc, h],
          fun h => by simp [acceptconnection, hacc, h], ?_, ?_⟩
  · by_cases h : isTransientErrno e <;>
      simp [acceptconnection, hacc, h, isHandleEv]
  · intro g rest hf
    simp [servingLoop, hf, deliverAll]

/-- Witness for C3: a transient EINTR failure, a non-transient EBADF
failure (errno 9), and the loop retry on a one-iteration schedule. -/
theorem c3_accept_failure_retry_witness :
    acceptconnection 3 ⟨AcceptRes.fail 4, none, true, true, none⟩ =
      [Event.sysAccept 3 (AcceptRes.fail 4),
       Event.log .debug "debug: accept() failed (ignored): %s"] ∧
    acceptconnection 3 ⟨AcceptRes.fail 9, none, true, true, none⟩ =
      [Event.sysAccept 3 (AcceptRes.fail 9),
       Event.log .err "accept() failed: %s"] ∧
    servingLoop ⟨false, 0, 3⟩
        [⟨[], ⟨AcceptRes.fail 4, none, true, true, none⟩⟩] =
      ((servingLoop ⟨false, 0, 3⟩ []).1,
       (servingLoop ⟨false, 0, 3⟩ []).2.1 + 1,
       acceptconnection 3 ⟨AcceptRes.fail 4, none, true, true, none⟩ ++
         (servingLoop ⟨false, 0, 3⟩ []).2.2) := by
  refine ⟨(c3_accept_failure_retry 3 ⟨AcceptRes.fail 4, none, true, true, none⟩
            4 rfl).1 (by decide),
          (c3_accept_failure_retry 3 ⟨AcceptRes.fail 9, none, true, true, none⟩
            9 rfl).2.1 (by decide),
          (c3_accept_failure_retry 3 ⟨AcceptRes.fail 4, none, true, true, none⟩
            4 rfl).2.2.2 ⟨false, 0, 3⟩ [] rfl⟩

theorem land_nonblock_clear (j : Nat) :
    (j &&& nonblockMask) &&& O_NONBLOCK = 0 := by
  apply Nat.eq_of_testBit_eq
  intro i
  simp only [Nat.testBit_land, Nat.zero_testBit]
  by_cases hi : i = 11
  · subst hi
    have hm : nonblockMask.testBit 11 = false := by decide
    simp [hm]
  · have ho : O_NONBLOCK.testBit i = false := by
      have h2 : O_NONBLOCK = 2 ^ 11 := by decide
      rw [h2]
      exact Nat.testBit_two_pow_of_ne (by omega)
    simp [ho]

/-- Claim C4: for every accepted connection the non-blocking flag is
cleared with fcntl(F_SETFL, j & ~O_NONBLOCK) before handleconnection
runs (the value written has the O_NONBLOCK bit clear); a failing
F_GETFL or F_SETFL closes and drops the descriptor without invoking the
request handler, and the loop keeps serving. -/
theorem c4_nonblock_cleared (srv : Int) (cenv : ConnEnv) (csock : Nat)
    (hacc : cenv.acceptRes = AcceptRes.conn csock) :
    (cenv.getflRes = none →
      acceptconnection srv cenv =
        [Event.sysAccept srv (AcceptRes.conn csock),
         Event.sysGetfl csock none,
         Event.log .err "fctnl(F_GETFL) failed: %s"] ++
        closeWithWarn csock cenv.closeOk ∧
      ((acceptconnection srv cenv).all fun ev => !isHandleEv ev) = true) ∧
    (∀ j, cenv.getflRes = some j → cenv.setflOk = false →
      acceptconnection srv cenv =
        [Event.sysAccept srv (AcceptRes.conn csock),
         Event.sysGetfl csock (some j),
         Event.sysSetfl csock (j &&& nonblockMask) false,
         Event.log .err "fctnl(F_SETFL,~O_NONBLOCK) failed: %s"] ++
        closeWithWarn csock cenv.closeOk ∧
      ((acceptconnection srv cenv).all fun ev => !isHandleEv ev) = true) ∧
    (∀ j, cenv.getflRes = some j → cenv.setflOk = true →
      acceptconnection srv cenv =
        [Event.sysAccept srv (AcceptRes.conn csock),
         Event.sysGetfl csock (some j),
         Event.sysSetfl csock (j &&& nonblockMask) true] ++
        handleconnection csock cenv ∧
      (j &&& nonblockMask) &&& O_NONBLOCK = 0) ∧
    (∀ (g : Globals) (rest : List LoopIter), g.nslcd_exitsignal = 0 →
      (servingLoop g (⟨[], cenv⟩ :: rest)).2.1 =
        (servingLoop g rest).2.1 + 1) := by
  refine ⟨fun h => ⟨by simp [acceptconnection, hacc, h], ?_⟩,
          fun j h hs => ⟨by simp [acceptconnection, hacc, h, hs], ?_⟩,
          fun j h hs => ⟨by simp [acceptconnection, hacc, h, hs],
                         land_nonblock_clear j⟩,
          fun g rest hf => by simp [servingLoop, hf, deliverAll]⟩
  · cases hc : cenv.closeOk <;>
      simp [acceptconnection, hacc, h, closeWithWarn, hc, isHandleEv]
  · cases hc : cenv.closeOk <;>
      simp [acceptconnection, hacc, h, hs, closeWithWarn, hc, isHandleEv]

/-- Witness for C4: concrete F_GETFL failure, F_SETFL failure, and the
successful clearing of O_NONBLOCK from flags 2050 (leaving 2). -/
theorem c4_nonblock_cleared_witness :
    (acceptconnection 3 ⟨AcceptRes.conn 7, none, true, true, none⟩ =
      [Event.sysAccept 3 (AcceptRes.conn 7),
       Event.sysGetfl 7 none,
       Event.log .err "fctnl(F_GETFL) failed: %s"] ++ closeWithWarn 7 true) ∧
    (acceptconnection 3 ⟨AcceptRes.conn 7, some 2050, false, true, none⟩ =
      [Event.sysAccept 3 (AcceptRes.conn 7),
       Event.sysGetfl 7 (some 2050),
       Event.sysSetfl 7 (2050 &&& nonblockMask) false,
       Event.log .err "fctnl(F_SETFL,~O_NONBLOCK) failed: %s"] ++
      closeWithWarn 7 true) ∧
    (acceptconnection 3
        ⟨AcceptRes.conn 7, some 2050, true, true, some (9, 10, 11)⟩ =
      [Event.sysAccept 3 (AcceptRes.conn 7),
       Event.sysGetfl 7 (some 2050),
       Event.sysSetfl 7 (2050 &&& nonblockMask) true] ++
      handleconnection 7 ⟨AcceptRes.conn 7, some 2050, true, true,
                          some (9, 10, 11)⟩) ∧
    (2050 &&& nonblockMask) &&& O_NONBLOCK = 0 := by
  refine ⟨((c4_nonblock_cleared 3 ⟨AcceptRes.conn 7, none, true, true, none⟩
             7 rfl).1 rfl).1,
          ((c4_nonblock_cleared 3
             ⟨AcceptRes.conn 7, some 2050, false, true, none⟩
             7 rfl).2.1 2050 rfl rfl).1, ?_, ?_⟩
  · exact ((c4_nonblock_cleared 3
      ⟨AcceptRes.conn 7, some 2050, true, true, some (9, 10, 11)⟩
      7 rfl).2.2.1 2050 rfl rfl).1
  · exact ((c4_nonblock_cleared 3
      ⟨AcceptRes.conn 7, some 2050, true, true, some (9, 10, 11)⟩
      7 rfl).2.2.1 2050 rfl rfl).2

/-- Claim C5: a failing SO_PEERCRED query is logged at error level and
the dispatcher closes the connection without invoking the handler; a
successful query logs the peer pid, uid and gid at informational level,
invokes the handler, and the dispatcher closes nothing on that path. -/
theorem c5_dispatch_peercred (csock : Nat) (cenv : ConnEnv) :
    (cenv.peercred = none →
      handleconnection csock cenv =
        [Event.sysGetsockopt csock false,
         Event.log .err "getsockopt(SO_PEERCRED) failed: %s"] ++
        closeWithWarn csock cenv.closeOk ∧
      ((handleconnection csock cenv).all fun ev => !isHandleEv ev) = true) ∧
    (∀ p u gd, cenv.peercred = some (p, u, gd) →
      handleconnection csock cenv =
        [Event.sysGetsockopt csock true,
         Event.log .info ("connection from pid=" ++ decStr p ++ " uid=" ++
                          decStr u ++ " gid=" ++ decStr gd),
         Event.handleRequest csock] ∧
      ((handleconnection csock cenv).all fun ev => !isCloseEv ev) = true) := by
  constructor
  · intro h
    refine ⟨by simp [handleconnection, h], ?_⟩
    cases hc : cenv.closeOk <;>
      simp [handleconnection, h, closeWithWarn, hc, isHandleEv]
  · intro p u gd h
    exact ⟨by simp [handleconnection, h],
           by simp [handleconnection, h, isCloseEv]⟩

/-- Witness for C5: a failed credential query on descriptor 7, and a
successful one from pid 9, uid 10, gid 11. -/
theorem c5_dispatch_peercred_witness :
    (handleconnection 7 ⟨AcceptRes.conn 7, some 2, true, true, none⟩ =
      [Event.sysGetsockopt 7 false,
       Event.log .err "getsockopt(SO_PEERCRED) failed: %s"] ++
      closeWithWarn 7 true) ∧
    (handleconnection 7
        ⟨AcceptRes.conn 7, some 2, true, true, some (9, 10, 11)⟩ =
      [Event.sysGetsockopt 7 true,
       Event.log .info "connection from pid=9 uid=10 gid=11",
       Event.handleRequest 7]) ∧
    ((handleconnection 7
        ⟨AcceptRes.conn 7, some 2, true, true, some (9, 10, 11)⟩).all
      fun ev => !isCloseEv ev) = true := by
  have h1 := (c5_dispatch_peercred 7
    ⟨AcceptRes.conn 7, some 2, true, true, none⟩).1 rfl
  have h2 := (c5_dispatch_peercred 7
    ⟨AcceptRes.conn 7, some 2, true, true, some (9, 10, 11)⟩).2 9 10 11 rfl
  refine ⟨h1.1, ?_, h2.2⟩
  rw [h2.1]
  rfl

theorem privCalls_append (a b : List Event) :
    privCalls (a ++ b) = privCalls a ++ privCalls b := by
  simp [privCalls]

theorem privCalls_write_pidfile (f : Option String) (p : Nat) (e : PidEnv) :
    privCalls (write_pidfile f p e).events = [] := by
  rcases f with _ | fn
  · rfl
  · by_cases h1 : e.fopenOk <;> by_cases h2 : e.fprintfRes ≤ 0 <;>
      by_cases h3 : e.fcloseOk <;>
      simp [write_pidfile, h1, h2, h3, privCalls, privCallOf]

theorem privCalls_startupPre (env : StartupEnv) :
    privCalls (startupPre env).1 = [] := by
  have hw := privCalls_write_pidfile (some nslcdPidfilePath) env.pid
    ⟨env.fopenOk, env.fprintfRes, env.fcloseOk⟩
  rcases hp : write_pidfile (some nslcdPidfilePath) env.pid
      ⟨env.fopenOk, env.fprintfRes, env.fcloseOk⟩ with ⟨wevs, wexit, wcont⟩
  rw [hp] at hw
  simp only at hw
  have hw2 : ∀ a ∈ wevs, privCallOf a = none := by
    rw [privCalls, List.filterMap_eq_nil_iff] at hw
    exact hw
  cases hdbg : env.debugging <;> cases hdm : env.daemonOk <;> cases wexit <;>
    (simp [startupPre, hp, hdbg, hdm, privCalls_append, hw, privCalls,
       privCallOf] <;>
     exact fun a ha => hw2 a ha)

theorem privCalls_installAll (l : List Nat) (env : StartupEnv) :
    privCalls (installAll l env).1 = [] := by
  induction l with
  | nil => rfl
  | cons s rest ih =>
    by_cases h : s ∈ env.sigFails
    · simp [installAll, install_sighandler, h, privCalls, privCallOf]
    · have hstep : installAll (s :: rest) env =
          ([Event.sigInstall s true] ++ (installAll rest env).1,
           (installAll rest env).2) := by
        simp [installAll, install_sighandler, h]
      rw [hstep]
      simp only [privCalls_append, ih, List.append_nil]
      rfl

theorem privCalls_privdrop (mygid myuid : Nat) (env : StartupEnv) :
    privCalls (privdrop mygid myuid env).1 ∈
      ([[PrivCall.setgroupsC],
        [PrivCall.setgroupsC, PrivCall.setgidC],
        [PrivCall.setgroupsC, PrivCall.setuidC],
        [PrivCall.setgroupsC, PrivCall.setgidC, PrivCall.setuidC]] :
        List (List PrivCall)) := by
  by_cases hg : mygid = gidNone <;> by_cases hu : myuid = uidNone <;>
    cases hsg : env.setgroupsOk <;> cases hsgid : env.setgidOk <;>
    cases hsuid : env.setuidOk <;>
    simp [privdrop, hg, hu, hsg, hsgid, hsuid, privCalls, privCallOf,
      privCalls_append]

/-- Claim C1: in every startup sequence, with the two identity locals
taken as arbitrary values, the ordered subsequence of privilege calls is
one of [], [setgroups], [setgroups, setgid], [setgroups, setuid],
[setgroups, setgid, setuid]: the setgroups attempt always precedes any
ID change, a setgid call precedes any setuid call, and setuid is never
executed before setgid. -/
theorem c1_privilege_drop_order (mygid myuid : Nat) (env : StartupEnv) :
    privCalls (mainStartupWith mygid myuid env).1 ∈
      ([[],
        [PrivCall.setgroupsC],
        [PrivCall.setgroupsC, PrivCall.setgidC],
        [PrivCall.setgroupsC, PrivCall.setuidC],
        [PrivCall.setgroupsC, PrivCall.setgidC, PrivCall.setuidC]] :
        List (List PrivCall)) := by
  unfold mainStartupWith
  rcases hpre : startupPre env with ⟨evs, oc⟩
  have hpc : privCalls evs = [] := by
    have h0 := privCalls_startupPre env
    rw [hpre] at h0
    exact h0
  have hlast : privCalls [Event.log .info "accepting connections"] = [] := rfl
  cases oc with
  | some c => simp [hpc]
  | none =>
    rcases hpd : privdrop mygid myuid env with ⟨evs2, oc2⟩
    have hpd2 := privCalls_privdrop mygid myuid env
    rw [hpd] at hpd2
    simp only at hpd2
    simp only [List.mem_cons, List.not_mem_nil, or_false] at hpd2
    cases oc2 with
    | some c =>
      show privCalls (evs ++ evs2) ∈ _
      rw [privCalls_append, hpc, List.nil_append]
      rcases hpd2 with h | h | h | h <;> rw [h] <;> simp
    | none =>
      rcases hia : installAll installedSignals env with ⟨evs3, oc3⟩
      have hi : privCalls evs3 = [] := by
        have h0 := privCalls_installAll installedSignals env
        rw [hia] at h0
        exact h0
      cases oc3 with
      | some c =>
        show privCalls (evs ++ evs2 ++ evs3) ∈ _
        rw [privCalls_append, privCalls_append, hpc, hi, List.nil_append,
          List.append_nil]
        rcases hpd2 with h | h | h | h <;> rw [h] <;> simp
      | none =>
        show privCalls
          (evs ++ evs2 ++ evs3 ++ [Event.log .info "accepting connections"])
            ∈ _
        rw [privCalls_append, privCalls_append, privCalls_append, hpc, hi,
          hlast, List.nil_append, List.append_nil, List.append_nil]
        rcases hpd2 with h | h | h | h <;> rw [h] <;> simp

theorem privdrop_none_calls (env : StartupEnv) :
    privCalls (privdrop gidNone uidNone env).1 = [PrivCall.setgroupsC] ∧
    (privdrop gidNone uidNone env).2 = none := by
  cases hsg : env.setgroupsOk <;>
    simp [privdrop, hsg, privCalls, privCallOf]

theorem mainStartup_privCalls (env : StartupEnv) :
    privCalls (mainStartup env).1 ∈
      ([[], [PrivCall.setgroupsC]] : List (List PrivCall)) := by
  unfold mainStartup mainStartupWith
  rcases hpre : startupPre env with ⟨evs, oc⟩
  have hpc : privCalls evs = [] := by
    have h0 := privCalls_startupPre env
    rw [hpre] at h0
    exact h0
  have hlast : privCalls [Event.log .info "accepting connections"] = [] := rfl
  cases oc with
  | some c => simp [hpc]
  | none =>
    rcases hpd : privdrop gidNone uidNone env with ⟨evs2, oc2⟩
    have h2 := privdrop_none_calls env
    rw [hpd] at h2
    simp only at h2
    obtain ⟨h2a, h2b⟩ := h2
    subst h2b
    rcases hia : installAll installedSignals env with ⟨evs3, oc3⟩
    have hi : privCalls evs3 = [] := by
      have h0 := privCalls_installAll installedSignals env
      rw [hia] at h0
      exact h0
    cases oc3 with
    | some c =>
      show privCalls (evs ++ evs2 ++ evs3) ∈ _
      rw [privCalls_append, privCalls_append, hpc, hi, List.nil_append,
        List.append_nil, h2a]
      simp
    | none =>
      show privCalls
        (evs ++ evs2 ++ evs3 ++ [Event.log .info "accepting connections"])
          ∈ _
      rw [privCalls_append, privCalls_append, privCalls_append, hpc, hi,
        hlast, List.nil_append, List.append_nil, List.append_nil, h2a]
      simp

/-- Claim C10: the target group and user IDs are the declared constants
(gid_t)-1 and (uid_t)-1 throughout startup, so in every environment the
guarded setgid and setuid calls never execute: the startup trace of main
contains no setgid or setuid event, and its privilege calls are at most
the single setgroups attempt. -/
theorem c10_identity_never_changed (env : StartupEnv) :
    ((mainStartup env).1.all fun ev => !isSetgidEv ev && !isSetuidEv ev)
      = true ∧
    privCalls (mainStartup env).1 ∈
      ([[], [PrivCall.setgroupsC]] : List (List PrivCall)) := by
  have hm := mainStartup_privCalls env
  refine ⟨?_, hm⟩
  have hgid : PrivCall.setgidC ∉ privCalls (mainStartup env).1 := by
    simp only [List.mem_cons, List.not_mem_nil, or_false] at hm
    rcases hm with h | h <;> rw [h] <;> simp
  have huid : PrivCall.setuidC ∉ privCalls (mainStartup env).1 := by
    have hm2 := mainStartup_privCalls env
    simp only [List.mem_cons, List.not_mem_nil, or_false] at hm2
    rcases hm2 with h | h <;> rw [h] <;> simp
  rw [List.all_eq_true]
  intro ev hev
  cases ev with
  | sysSetgid g ok =>
    exfalso
    exact hgid (List.mem_filterMap.mpr ⟨Event.sysSetgid g ok, hev, rfl⟩)
  | sysSetuid u ok =>
    exfalso
    exact huid (List.mem_filterMap.mpr ⟨Event.sysSetuid u ok, hev, rfl⟩)
  | log lvl msg => simp [isSetgidEv, isSetuidEv]
  | sysDaemon ok => simp [isSetgidEv, isSetuidEv]
  | sysUmask m => simp [isSetgidEv, isSetuidEv]
  | startLogging => simp [isSetgidEv, isSetuidEv]
  | atexitRegister => simp [isSetgidEv, isSetuidEv]
  | fileWrite p c => simp [isSetgidEv, isSetuidEv]
  | serverOpen fd => simp [isSetgidEv, isSetuidEv]
  | sysSetgroups ok => simp [isSetgidEv, isSetuidEv]
  | sigInstall s ok => simp [isSetgidEv, isSetuidEv]
  | sysAccept srv r => simp [isSetgidEv, isSetuidEv]
  | sysGetfl fd r => simp [isSetgidEv, isSetuidEv]
  | sysSetfl fd fl ok => simp [isSetgidEv, isSetuidEv]
  | sysGetsockopt fd ok => simp [isSetgidEv, isSetuidEv]
  | sysClose fd ok => simp [isSetgidEv, isSetuidEv]
  | handleRequest fd => simp [isSetgidEv, isSetuidEv]
